import Mathlib

/-!
Shallow embedding of the route-planner order/payment workflow.

The definitions below are translated from the repository's source:
  * the Pinia orders store (`useOrdersStore`: `addOrder`, `fetchOrders`,
    `updateOrderStatus`, `updatePaymentStatus`, `deleteOrder`,
    `getOrderById`, `fetchOrderById`),
  * the auth store (`isAuthenticated`, `isAdmin`),
  * the GoPay stub (`getPaymentStatus`, `verifyCallbackSignature`),
  * the Express `/api/gopay-callback` handler in `server.js`,
  * the Vue router navigation guard (`router.beforeEach`),
  * the route-price computation in the map view
    (`routesfound` handler, `PRICE_PER_KM`).

External effects are made explicit parameters:
  * every Supabase round-trip gets a `Bool` flag saying whether the call
    reported an error (`true` = call succeeded); the surfaced message is
    the fallback string from the corresponding `catch` block;
  * the database's generated id / timestamp and `Math.random()` draws are
    passed in as arguments;
  * email sending is fire-and-forget with all errors swallowed in the
    source, so it has no effect on the modelled state and is omitted.

Numbers (distances, prices, coordinates, random draws) are modelled as
exact rationals / integers.
-/

/-- Order status enumeration, from the `Order` interface union type and the
database CHECK constraint (`pending | confirmed | completed | cancelled`). -/
inductive OrderStatus where
  | pending
  | confirmed
  | completed
  | cancelled
deriving DecidableEq, Repr

/-- The camel-case `Order` interface of the orders store. Optional TS fields
are `Option`s. -/
structure Order where
  id : String
  customerName : String
  customerEmail : String
  customerPhone : String
  pickupDate : String
  pickupTime : String
  startAddress : String
  endAddress : String
  startPoint : ℚ × ℚ
  endPoint : ℚ × ℚ
  distance : ℚ
  price : ℤ
  additionalNotes : Option String
  createdAt : String
  status : OrderStatus
  paymentId : Option String
  paymentStatus : Option String
  paymentUrl : Option String
deriving DecidableEq, Repr

/-- A row of the `orders` table (snake-case columns, per the migration and
the `Database` type definitions). `user_id` exists in the schema but is
never read by the store's row mapper. -/
structure DbRow where
  id : String
  customer_name : String
  customer_email : String
  customer_phone : String
  pickup_date : String
  pickup_time : String
  start_address : String
  end_address : String
  start_point : ℚ × ℚ
  end_point : ℚ × ℚ
  distance : ℚ
  price : ℤ
  additional_notes : Option String
  created_at : String
  status : OrderStatus
  user_id : Option String
  payment_id : Option String
  payment_status : Option String
  payment_url : Option String
deriving DecidableEq, Repr

/-- `mapDbRowToOrder` from the orders store: converts a database row to the
`Order` interface, field by field. -/
def mapDbRowToOrder (row : DbRow) : Order :=
  { id := row.id
    customerName := row.customer_name
    customerEmail := row.customer_email
    customerPhone := row.customer_phone
    pickupDate := row.pickup_date
    pickupTime := row.pickup_time
    startAddress := row.start_address
    endAddress := row.end_address
    startPoint := row.start_point
    endPoint := row.end_point
    distance := row.distance
    price := row.price
    additionalNotes := row.additional_notes
    createdAt := row.created_at
    status := row.status
    paymentId := row.payment_id
    paymentStatus := row.payment_status
    paymentUrl := row.payment_url }

/-- The fields `addOrder` receives: `Omit<Order, 'id' | 'createdAt' |
'status'>` restricted to what `mapOrderToDbRow` actually maps. -/
structure NewOrder where
  customerName : String
  customerEmail : String
  customerPhone : String
  pickupDate : String
  pickupTime : String
  startAddress : String
  endAddress : String
  startPoint : ℚ × ℚ
  endPoint : ℚ × ℚ
  distance : ℚ
  price : ℤ
  additionalNotes : Option String
deriving DecidableEq, Repr

/-- The row produced by `insert(mapOrderToDbRow(order)).select().single()`:
the mapped columns plus the database-generated id and timestamp and the
schema defaults (`status` defaults to `'pending'`, payment columns and
`user_id` are null on insert). -/
def insertedRow (newId createdAt : String) (o : NewOrder) : DbRow :=
  { id := newId
    customer_name := o.customerName
    customer_email := o.customerEmail
    customer_phone := o.customerPhone
    pickup_date := o.pickupDate
    pickup_time := o.pickupTime
    start_address := o.startAddress
    end_address := o.endAddress
    start_point := o.startPoint
    end_point := o.endPoint
    distance := o.distance
    price := o.price
    additional_notes := o.additionalNotes
    created_at := createdAt
    status := OrderStatus.pending
    user_id := none
    payment_id := none
    payment_status := none
    payment_url := none }

/-- Combined state of the orders store and its backing table: `db` is the
`orders` table contents (newest first, matching the `created_at`-descending
fetch order), `orders` is the in-memory `ref<Order[]>` cache, `error` and
`isLoading` are the store's refs. -/
structure StoreState where
  db : List DbRow
  orders : List Order
  error : Option String
  isLoading : Bool
deriving DecidableEq, Repr

/-- Update the first element satisfying `p` (the in-place mutation of the
object returned by `orders.value.find(...)`). -/
def updateFirst (p : α → Bool) (f : α → α) : List α → List α
  | [] => []
  | x :: xs => if p x then f x :: xs else x :: updateFirst p f xs

/-- `fetchOrders`: fetch all rows ordered by creation time (the `db` list
already carries that order) and replace the cache wholesale; on a Supabase
error the cache is untouched and the error ref is set. -/
def fetchOrders (dbOk : Bool) (s : StoreState) : StoreState :=
  if dbOk then
    { s with orders := s.db.map mapDbRowToOrder, error := none, isLoading := false }
  else
    { s with error := some "Failed to fetch orders", isLoading := false }

/-- `getOrderById`: pure lookup in the in-memory cache
(`orders.value.find(o => o.id === id)`). -/
def getOrderById (s : StoreState) (id : String) : Option Order :=
  s.orders.find? (fun o => o.id == id)

/-- `updateOrderStatus(id, status)`: persist the new status
(`update({ status }).eq('id', id)`), then patch the cached copy if present;
on a Supabase error set the error ref and leave the cache alone. -/
def updateOrderStatus (dbOk : Bool) (s : StoreState) (id : String)
    (status : OrderStatus) : StoreState :=
  let s0 := { s with error := none, isLoading := true }
  if dbOk then
    let s1 := { s0 with
      db := s0.db.map fun (r : DbRow) => if r.id == id then { r with status := status } else r }
    let s2 := { s1 with
      orders := updateFirst (fun o => o.id == id) (fun o => { o with status := status }) s1.orders }
    { s2 with isLoading := false }
  else
    { s0 with error := some "Failed to update order status", isLoading := false }

/-- `updatePaymentStatus(orderId, paymentStatus)`: persist the new payment
status; then, only if the order is found in the in-memory cache, patch the
cached copy and — when the status is `'PAID'` — cascade to
`updateOrderStatus(orderId, 'confirmed')` (whose own Supabase call may
fail independently, flag `cascadeOk`). -/
def updatePaymentStatus (dbOk cascadeOk : Bool) (s : StoreState)
    (orderId : String) (paymentStatus : String) : StoreState :=
  let s0 := { s with error := none, isLoading := true }
  if dbOk then
    let s1 := { s0 with
      db := s0.db.map fun (r : DbRow) =>
        if r.id == orderId then { r with payment_status := some paymentStatus } else r }
    match s1.orders.find? (fun o => o.id == orderId) with
    | some _ =>
      let s2 := { s1 with
        orders := updateFirst (fun o => o.id == orderId)
          (fun o => { o with paymentStatus := some paymentStatus }) s1.orders }
      let s3 := if paymentStatus == "PAID"
        then updateOrderStatus cascadeOk s2 orderId OrderStatus.confirmed
        else s2
      { s3 with isLoading := false }
    | none => { s1 with isLoading := false }
  else
    { s0 with error := some "Failed to update payment status", isLoading := false }

/-- `deleteOrder(id)`: delete the row (`delete().eq('id', id)`), then filter
the cache; on a Supabase error set the error ref and leave the cache
alone. -/
def deleteOrder (dbOk : Bool) (s : StoreState) (id : String) : StoreState :=
  let s0 := { s with error := none, isLoading := true }
  if dbOk then
    { s0 with
      db := s0.db.filter (fun r => !(r.id == id)),
      orders := s0.orders.filter (fun o => !(o.id == id)),
      isLoading := false }
  else
    { s0 with error := some "Failed to delete order", isLoading := false }

/-- `fetchOrderById(id)`: direct single-row fetch
(`select('*').eq('id', id).single()`); `.single()` errors unless exactly
one row matches. Returns the mapped order or `none` on error; the cache is
never written. -/
def fetchOrderById (dbOk : Bool) (s : StoreState) (id : String) :
    Option Order × StoreState :=
  let s0 := { s with error := none, isLoading := true }
  if dbOk then
    match s0.db.filter (fun r => r.id == id) with
    | [r] => (some (mapDbRowToOrder r), { s0 with isLoading := false })
    | _ => (none, { s0 with error := some "Failed to fetch order", isLoading := false })
  else
    (none, { s0 with error := some "Failed to fetch order", isLoading := false })

/-- `addOrder(order)`: insert the row (flag `insertOk`; the database
generates `newId` and `createdAt`); then try to create a GoPay payment —
`paymentResult` is `some (id, url)` when `createPayment` returns, `none`
when it throws, and a throw is caught and deliberately ignored; on success
write the payment columns back (flag `updOk`; an update error is only
logged) and patch the returned `data` object with them; fire notification
emails (errors swallowed, no state effect); refresh the whole list via
`fetchOrders` (flag `fetchOk`); return `{ orderId, paymentUrl }` from the
`data` object. If the insert itself fails, return `null` with the error
ref set. -/
def addOrder (insertOk : Bool) (newId createdAt : String)
    (paymentResult : Option (String × String)) (updOk fetchOk : Bool)
    (s : StoreState) (o : NewOrder) : Option (String × Option String) × StoreState :=
  let s0 := { s with error := none, isLoading := true }
  if insertOk then
    let row := insertedRow newId createdAt o
    let s1 := { s0 with db := row :: s0.db }
    match paymentResult with
    | some (pid, purl) =>
      let s2 :=
        if updOk then
          { s1 with db := s1.db.map fun (r : DbRow) =>
              if r.id == newId then
                { r with payment_id := some pid, payment_status := some "CREATED",
                         payment_url := some purl }
              else r }
        else s1
      let s3 := fetchOrders fetchOk s2
      (some (newId, some purl), { s3 with isLoading := false })
    | none =>
      let s3 := fetchOrders fetchOk s1
      (some (newId, row.payment_url), { s3 with isLoading := false })
  else
    (none, { s0 with error := some "Failed to add order", isLoading := false })

/-! ### GoPay stub (`src/lib/gopay`) -/

/-- The status array of the mock `getPaymentStatus`. -/
def mockStatuses : List String :=
  ["CREATED", "PENDING", "PAID", "CANCELED", "TIMEOUTED", "FAILED"]

/-- `paymentId.startsWith('mock_payment_')`, expressed on the underlying
character lists (extensionally the same test; `String.startsWith` itself
is opaque to kernel reduction). -/
def startsWithMockPayment (paymentId : String) : Bool :=
  "mock_payment_".data.isPrefixOf paymentId.data

/-- `getPaymentStatus(paymentId)`: for ids starting with `'mock_payment_'`,
pick `statuses[randomIndex]` where
`randomIndex = Math.random() < 0.7 ? 2 : Math.floor(Math.random() * statuses.length)`;
the two `Math.random()` draws are the arguments `r1`, `r2` (each in
`[0, 1)`). Array indexing is partial in JS (`undefined` out of bounds), so
the result is an `Option`. Other ids yield `'UNKNOWN'`. -/
def getPaymentStatus (paymentId : String) (r1 r2 : ℚ) : Option String :=
  if startsWithMockPayment paymentId then
    let randomIndex : ℕ :=
      if r1 < 7/10 then 2 else (⌊r2 * (mockStatuses.length : ℚ)⌋).toNat
    mockStatuses.get? randomIndex
  else
    some "UNKNOWN"

/-- `verifyCallbackSignature(body, signature)`: the development stub always
returns `true`. -/
def verifyCallbackSignature (_body : String) (_signature : String) : Bool :=
  true

/-- The `/api/gopay-callback` Express handler: read the
`x-gopay-signature` header (`none` when absent); respond 401 when
`!signature || !verifyCallbackSignature(req.body, signature)` — note the
empty string is falsy in JS — and 200 otherwise. -/
def gopayCallback (signature : Option String) (body : String) : ℕ :=
  match signature with
  | none => 401
  | some sg =>
    if sg == "" || !verifyCallbackSignature body sg then 401 else 200

/-! ### Pricing (map view `routesfound` handler) -/

/-- `PRICE_PER_KM = 20` (20 CZK per kilometer). -/
def PRICE_PER_KM : ℚ := 20

/-- The UI refs the `routesfound` handler writes. -/
structure RouteUiState where
  routeDistance : Option ℚ
  routePrice : Option ℤ
  showOrderForm : Bool
  currentStep : String
deriving DecidableEq, Repr

/-- The `routesfound` handler body for a found route with total distance
`distanceInMeters`: store the distance, set
`routePrice = Math.round(distanceInKm * PRICE_PER_KM)` with
`distanceInKm = distanceInMeters / 1000`, reveal the order form, reset the
step. `Math.round` is `round` (half away from zero toward `+∞`, matching
JS on the nonnegative inputs at issue). -/
def routesfound (distanceInMeters : ℚ) (ui : RouteUiState) : RouteUiState :=
  let distanceInKm := distanceInMeters / 1000
  { ui with
    routeDistance := some distanceInMeters,
    routePrice := some (round (distanceInKm * PRICE_PER_KM)),
    showOrderForm := true,
    currentStep := "details" }

/-- The spec's pricing formula, stated in its own words:
`price = round(d/1000 × 20)`. -/
def specPrice (d : ℚ) : ℤ :=
  round (d / 1000 * 20)

/-! ### Auth store and router guard -/

/-- A session user as the auth store sees it: Supabase user id plus the
role copied into `user_metadata` from the `profiles` row (absent when no
profile was found). -/
structure AuthUser where
  id : String
  role : Option String
deriving DecidableEq, Repr

/-- `isAuthenticated`: `!!user.value`. -/
def isAuthenticated (user : Option AuthUser) : Bool :=
  user.isSome

/-- `isAdmin`: `user.value?.user_metadata?.role === 'admin'`. -/
def isAdmin (user : Option AuthUser) : Bool :=
  match user with
  | some u => u.role == some "admin"
  | none => false

/-- A route record: path, name, and the `requiresAuth` meta flag. -/
structure RouteRecord where
  path : String
  name : String
  requiresAuth : Bool
deriving DecidableEq, Repr

/-- The router's route table: only `/admin` carries
`meta: { requiresAuth: true }`. -/
def routes : List RouteRecord :=
  [ { path := "/", name := "home", requiresAuth := false },
    { path := "/admin", name := "admin", requiresAuth := true },
    { path := "/login", name := "login", requiresAuth := false },
    { path := "/payment-result", name := "paymentResult", requiresAuth := false } ]

/-- Outcome of the navigation guard: enter the target, or redirect to a
named route carrying the original full path in the `redirect` query
parameter. -/
inductive NavDecision where
  | proceed
  | redirect (name : String) (redirectQuery : String)
deriving DecidableEq, Repr

/-- `router.beforeEach`: look up the matched route's `requiresAuth` meta;
when it holds and `authStore.isAuthenticated` does not, redirect to the
login route with `query: { redirect: to.fullPath }`; otherwise proceed. -/
def beforeEach (user : Option AuthUser) (toPath toFullPath : String) : NavDecision :=
  let requiresAuth := ((routes.find? (fun r => r.path == toPath)).map
    (fun r => r.requiresAuth)).getD false
  if requiresAuth && !(isAuthenticated user) then
    NavDecision.redirect "login" toFullPath
  else
    NavDecision.proceed

/-! ### Concrete sample data (used by witnesses and counterexamples) -/

/-- A persisted order row: id `o1`, status still `pending`, payment session
already created (a mock payment id). -/
def row1 : DbRow :=
  { id := "o1"
    customer_name := "Jan Novak"
    customer_email := "jan@example.com"
    customer_phone := "+420123456789"
    pickup_date := "2025-03-05"
    pickup_time := "10:00"
    start_address := "Prague"
    end_address := "Brno"
    start_point := (50, 14)
    end_point := (49, 16)
    distance := 200000
    price := 4000
    additional_notes := none
    created_at := "2025-03-01T00:00:00Z"
    status := OrderStatus.pending
    user_id := none
    payment_id := some "mock_payment_ab12cd34"
    payment_status := some "CREATED"
    payment_url := some "https://example.com/payment-result?orderId=o1" }

/-- Store state as the payment-result page sees it: the row exists in the
database, but the in-memory list was never loaded. -/
def state1 : StoreState :=
  { db := [row1], orders := [], error := none, isLoading := false }

/-- Valid order form fields for a Prague → Brno booking. -/
def newOrder1 : NewOrder :=
  { customerName := "Jan Novak"
    customerEmail := "jan@example.com"
    customerPhone := "+420123456789"
    pickupDate := "2025-03-05"
    pickupTime := "10:00"
    startAddress := "Prague"
    endAddress := "Brno"
    startPoint := (50, 14)
    endPoint := (49, 16)
    distance := 200000
    price := 4000
    additionalNotes := none }

/-! ### Shared lemmas -/

/-- Filtering out every element satisfying `p` leaves nothing for `find? p`
to find. -/
theorem find?_filter_not {α : Type} (p : α → Bool) (l : List α) :
    (l.filter (fun a => !(p a))).find? p = none := by
  induction l with
  | nil => rfl
  | cons x xs ih =>
    by_cases h : p x
    · simp [List.filter_cons, h, ih]
    · simp [List.filter_cons, List.find?_cons, h, ih]

/-! ### Claim theorems -/

/-- C3: for every route distance `d ≥ 0` (meters) produced by route
computation, the `routesfound` handler quotes the price
`round(d/1000 × 20)` of the spec's pricing formula, and records the
distance itself. -/
theorem routesfound_quotes_spec_price (d : ℚ) (ui : RouteUiState) (hd : 0 ≤ d) :
    (routesfound d ui).routePrice = some (specPrice d) ∧
    (routesfound d ui).routeDistance = some d :=
  ⟨rfl, rfl⟩

/-- C3 witness: a computed distance of 200,000 m is quoted at 4,000
currency units. -/
theorem routesfound_quotes_spec_price_witness :
    0 ≤ (200000 : ℚ) ∧
    (routesfound 200000 ⟨none, none, false, "address"⟩).routePrice =
      some (specPrice 200000) ∧
    specPrice 200000 = 4000 :=
  ⟨by norm_num,
   (routesfound_quotes_spec_price 200000 ⟨none, none, false, "address"⟩ (by norm_num)).1,
   by norm_num [specPrice, round_eq]⟩

/-- C6: an unauthenticated navigation to `/admin` is redirected by the
guard to the login route with the originally requested path preserved in
the `redirect` query parameter; the guarded page is not entered. -/
theorem unauth_admin_redirects_to_login :
    beforeEach none "/admin" "/admin" = NavDecision.redirect "login" "/admin" := by
  rfl

/-- C10: the guard for `requiresAuth` routes tests only session presence:
every authenticated user may enter `/admin` whatever their role, and the
guard's decision never depends on anything but `isAuthenticated` — two
session users are treated identically on every route, whether `isAdmin`
holds of them or not. -/
theorem guard_ignores_role (u v : AuthUser) (p fp : String) :
    beforeEach (some u) "/admin" "/admin" = NavDecision.proceed ∧
    beforeEach (some u) p fp = beforeEach (some v) p fp :=
  ⟨rfl, rfl⟩

/-- C8: when the underlying persistence call fails, each mutating store
operation (`updateOrderStatus`, `updatePaymentStatus`, `deleteOrder`)
leaves the in-memory cache (and the table) exactly unchanged and sets the
store's error field. -/
theorem mutators_on_db_error_keep_cache (s : StoreState) (id orderId : String)
    (st : OrderStatus) (ps : String) (cascadeOk : Bool) :
    ((updateOrderStatus false s id st).orders = s.orders ∧
      (updateOrderStatus false s id st).db = s.db ∧
      (updateOrderStatus false s id st).error = some "Failed to update order status") ∧
    ((updatePaymentStatus false cascadeOk s orderId ps).orders = s.orders ∧
      (updatePaymentStatus false cascadeOk s orderId ps).db = s.db ∧
      (updatePaymentStatus false cascadeOk s orderId ps).error =
        some "Failed to update payment status") ∧
    ((deleteOrder false s id).orders = s.orders ∧
      (deleteOrder false s id).db = s.db ∧
      (deleteOrder false s id).error = some "Failed to delete order") :=
  ⟨⟨rfl, rfl, rfl⟩, ⟨rfl, rfl, rfl⟩, ⟨rfl, rfl, rfl⟩⟩

/-- C5: a successful `deleteOrder` removes the order from the persisted
table and from the in-memory cache, so a subsequent `getOrderById` for
that id returns `none` (and no row with that id remains findable). -/
theorem delete_removes_everywhere (s : StoreState) (id : String) :
    getOrderById (deleteOrder true s id) id = none ∧
    (deleteOrder true s id).db.find? (fun r => r.id == id) = none := by
  constructor
  · exact find?_filter_not (fun o => o.id == id) s.orders
  · exact find?_filter_not (fun r => r.id == id) s.db

/-- C4 counterexample: a request whose `x-gopay-signature` header is
present but empty gets 401 even though the stub verifier accepts every
body/signature pair, while a non-empty signature gets 200 — so the
response status is not determined solely by the header's presence, and the
endpoint does not answer 200 whenever the signature verifies. -/
theorem gopayCallback_presence_counterexample :
    gopayCallback (some "") "payload" = 401 ∧
    verifyCallbackSignature "payload" "" = true ∧
    gopayCallback (some "sig") "payload" = 200 :=
  ⟨rfl, rfl, rfl⟩

/-- C4 amended: `/api/gopay-callback` responds 200 exactly when the
`x-gopay-signature` header is present with a non-empty value (JS
truthiness); since the stub verifier always accepts, no other part of the
request matters. -/
theorem gopayCallback_200_iff_nonempty_signature (signature : Option String)
    (body : String) :
    gopayCallback signature body = 200 ↔ ∃ s, signature = some s ∧ s ≠ "" := by
  cases signature with
  | none => simp [gopayCallback]
  | some s =>
    by_cases h : s = ""
    · subst h
      simp [gopayCallback, verifyCallbackSignature]
    · simp [gopayCallback, verifyCallbackSignature, h]

/-- C4 witness: a concrete non-empty signature is accepted. -/
theorem gopayCallback_200_iff_nonempty_signature_witness :
    gopayCallback (some "abc") "payload" = 200 :=
  (gopayCallback_200_iff_nonempty_signature (some "abc") "payload").mpr
    ⟨"abc", rfl, by decide⟩

/-- C7: for random draws in `[0, 1)`, `getPaymentStatus` on a
`mock_payment_`-prefixed id always lands inside the status array — the
computed index is in bounds, so the result is one of the six statuses,
never `undefined` — and on any other id it returns `UNKNOWN`. -/
theorem getPaymentStatus_total (paymentId : String) (r1 r2 : ℚ)
    (h1 : 0 ≤ r1) (h2 : r1 < 1) (h3 : 0 ≤ r2) (h4 : r2 < 1) :
    (startsWithMockPayment paymentId = true →
      ∃ st, getPaymentStatus paymentId r1 r2 = some st ∧ st ∈ mockStatuses) ∧
    (startsWithMockPayment paymentId = false →
      getPaymentStatus paymentId r1 r2 = some "UNKNOWN") := by
  constructor
  · intro hm
    simp only [getPaymentStatus]
    rw [if_pos hm]
    by_cases hr : r1 < 7/10
    · rw [if_pos hr]
      exact ⟨"PAID", rfl, by simp [mockStatuses]⟩
    · rw [if_neg hr]
      have hlen : (mockStatuses.length : ℚ) = 6 := by norm_num [mockStatuses]
      have hub : ⌊r2 * (mockStatuses.length : ℚ)⌋ < 6 := by
        rw [hlen]
        exact Int.floor_lt.mpr (by push_cast; linarith)
      have hlb : (0 : ℤ) ≤ ⌊r2 * (mockStatuses.length : ℚ)⌋ := by
        apply Int.floor_nonneg.mpr
        rw [hlen]
        positivity
      have hn : (⌊r2 * (mockStatuses.length : ℚ)⌋).toNat < mockStatuses.length := by
        have h6 : mockStatuses.length = 6 := rfl
        omega
      exact ⟨mockStatuses.get ⟨_, hn⟩, List.get?_eq_get hn, List.get_mem _ _ _⟩
  · intro hm
    simp [getPaymentStatus, hm]

/-- C7 witness: concrete draws on a mock id and on a foreign id. -/
theorem getPaymentStatus_total_witness :
    ((0 : ℚ) ≤ 1/2 ∧ (1 : ℚ)/2 < 1) ∧
    (∃ st, getPaymentStatus "mock_payment_ab12cd34" (1/2) (1/2) = some st ∧
      st ∈ mockStatuses) ∧
    getPaymentStatus "gp_123" (1/2) (1/2) = some "UNKNOWN" := by
  have h := getPaymentStatus_total "mock_payment_ab12cd34" (1/2) (1/2)
    (by norm_num) (by norm_num) (by norm_num) (by norm_num)
  have h2 := getPaymentStatus_total "gp_123" (1/2) (1/2)
    (by norm_num) (by norm_num) (by norm_num) (by norm_num)
  exact ⟨⟨by norm_num, by norm_num⟩, h.1 (by decide), h2.2 (by decide)⟩

/-- C9: `fetchOrderById` never writes the in-memory cache — the cached
list (and thus `getOrderById`) is unchanged whether the fetch succeeds or
fails — and on a successful single-row fetch it returns the mapped
order. -/
theorem fetchOrderById_leaves_cache (dbOk : Bool) (s : StoreState) (id : String) :
    (fetchOrderById dbOk s id).2.orders = s.orders ∧
    getOrderById (fetchOrderById dbOk s id).2 id = getOrderById s id ∧
    (∀ r : DbRow, dbOk = true → s.db.filter (fun x => x.id == id) = [r] →
      (fetchOrderById dbOk s id).1 = some (mapDbRowToOrder r)) := by
  cases dbOk with
  | false => exact ⟨rfl, rfl, fun r h => Bool.noConfusion h⟩
  | true =>
    refine ⟨?_, ?_, ?_⟩
    · simp only [fetchOrderById, if_true]
      split <;> rfl
    · simp only [fetchOrderById, getOrderById, if_true]
      split <;> rfl
    · intro r _ hfil
      simp only [fetchOrderById, if_true]
      rw [hfil]

/-- C9 witness: fetching the sample order by id returns it mapped while
the (empty) cache stays empty and `getOrderById` still misses. -/
theorem fetchOrderById_leaves_cache_witness :
    (fetchOrderById true state1 "o1").2.orders = state1.orders ∧
    getOrderById (fetchOrderById true state1 "o1").2 "o1" = getOrderById state1 "o1" ∧
    (fetchOrderById true state1 "o1").1 = some (mapDbRowToOrder row1) := by
  obtain ⟨ha, hb, hc⟩ := fetchOrderById_leaves_cache true state1 "o1"
  exact ⟨ha, hb, hc row1 rfl (by decide)⟩

/-- C2 counterexample: with a successful insert and a failing
payment-session call, `addOrder` returns the new order id together with a
null payment URL — not a non-empty redirect URL. -/
theorem addOrder_payment_failure_counterexample :
    (addOrder true "o9" "2025-03-02T00:00:00Z" none true true
      { db := [], orders := [], error := none, isLoading := false } newOrder1).1 =
      some ("o9", (none : Option String)) :=
  rfl

/-- C2 amended: when the insert succeeds but the payment-session call
fails, the order is persisted with its payment fields unset, no error is
surfaced, and the call returns the new id with the payment URL absent;
when the insert itself fails, `addOrder` returns `null` and sets the
error field. -/
theorem addOrder_payment_failure (newId createdAt : String) (updOk : Bool)
    (pr : Option (String × String)) (s : StoreState) (o : NewOrder) :
    ((addOrder true newId createdAt none updOk true s o).1 = some (newId, none) ∧
     (addOrder true newId createdAt none updOk true s o).2.error = none ∧
     ∃ r ∈ (addOrder true newId createdAt none updOk true s o).2.db,
       r.id = newId ∧ r.payment_id = none ∧ r.payment_status = none ∧
         r.payment_url = none) ∧
    ((addOrder false newId createdAt pr updOk true s o).1 = none ∧
     (addOrder false newId createdAt pr updOk true s o).2.error =
       some "Failed to add order") := by
  refine ⟨⟨rfl, rfl, ?_⟩, rfl, rfl⟩
  refine ⟨insertedRow newId createdAt o, ?_, rfl, rfl, rfl, rfl⟩
  have hdb : (addOrder true newId createdAt none updOk true s o).2.db =
      insertedRow newId createdAt o :: s.db := rfl
  rw [hdb]
  exact List.mem_cons_self _ _

/-- C2 witness: the amended behavior at a concrete booking. -/
theorem addOrder_payment_failure_witness :
    (addOrder true "o9" "2025-03-02T00:00:00Z" none true true
        { db := [], orders := [], error := none, isLoading := false } newOrder1).2.error
      = none ∧
    ∃ r ∈ (addOrder true "o9" "2025-03-02T00:00:00Z" none true true
        { db := [], orders := [], error := none, isLoading := false } newOrder1).2.db,
      r.id = "o9" ∧ r.payment_id = none ∧ r.payment_status = none ∧
        r.payment_url = none := by
  have h := addOrder_payment_failure "o9" "2025-03-02T00:00:00Z" true none
    { db := [], orders := [], error := none, isLoading := false } newOrder1
  exact ⟨h.1.2.1, h.1.2.2⟩

/-- C1: the payment-result poll evaluated on the failing input — the order
exists in the database with status `pending` and a payment id, the
in-memory list was never loaded — fetches the order by id, then
`updatePaymentStatus(id, 'PAID')` persists the payment status but the
order's status remains `pending`: the cascade to `confirmed` sits behind
the in-memory-cache lookup, which `fetchOrderById` never populates. -/
theorem paymentResult_poll_leaves_status_pending :
    (fetchOrderById true state1 "o1").1 = some (mapDbRowToOrder row1) ∧
    ((updatePaymentStatus true true (fetchOrderById true state1 "o1").2 "o1" "PAID").db.map
      fun r => (r.id, r.status, r.payment_status)) =
      [("o1", OrderStatus.pending, some "PAID")] ∧
    (updatePaymentStatus true true (fetchOrderById true state1 "o1").2 "o1" "PAID").orders
      = [] := by
  refine ⟨by decide, by decide, by decide⟩
